import Mathlib

/-!
Verification of the pcap gRPC server (packages `pcap`, files `server.go` and
the combined server/capture file).

The development shallowly embeds:
* the address classification performed by `(*server).InterfaceList`
  (including a faithful model of Go's `net.ParseIP` / `IP.To4`, which the
  handler calls),
* the `InterfaceList` handler itself,
* the `(*server).LiveCapture` handler: inactive-handle option staging,
  activation, BPF filter attachment, the `defer`red releases, and the
  per-iteration `select` loop arbitrating the asynchronous read against
  the global `shuttingDown` channel and the stream context.

External collaborators (libpcap via gopacket, the gRPC stream, the host
network interface query) are modelled as environments/oracles saying which
calls fail; the handler code itself is translated line by line.
-/

namespace Pcap

/-! ## Go `net.ParseIP`, modelled from the Go standard library

`InterfaceList` calls `net.ParseIP` and `IP.To4`.  A Go `IP` is a byte
slice: `nil` (parse failure) is modelled as `[]`, an IPv4 value as the
16-byte v4-in-v6 form (as `ParseIP` produces), `To4` as in `net/ip.go`.
-/

/-- Go `internal/bytealg`-backed `dtoi` (net/parse.go): reads a decimal
prefix, returning (value, characters consumed, ok); overflow at 0xFFFFFF. -/
def dtoiAux : List Char → Nat → Nat → Nat × Nat × Bool
  | [], n, i => if i = 0 then (0, 0, false) else (n, i, true)
  | c :: rest, n, i =>
    if '0' ≤ c ∧ c ≤ '9' then
      let n2 := n * 10 + (c.toNat - '0'.toNat)
      if 0xFFFFFF ≤ n2 then (0xFFFFFF, i, false)
      else dtoiAux rest n2 (i + 1)
    else if i = 0 then (0, 0, false) else (n, i, true)

def dtoi (s : List Char) : Nat × Nat × Bool := dtoiAux s 0 0

/-- Go `xtoi` (net/parse.go): hexadecimal prefix. -/
def xtoiAux : List Char → Nat → Nat → Nat × Nat × Bool
  | [], n, i => if i = 0 then (0, 0, false) else (n, i, true)
  | c :: rest, n, i =>
    let d : Option Nat :=
      if '0' ≤ c ∧ c ≤ '9' then some (c.toNat - '0'.toNat)
      else if 'a' ≤ c ∧ c ≤ 'f' then some (c.toNat - 'a'.toNat + 10)
      else if 'A' ≤ c ∧ c ≤ 'F' then some (c.toNat - 'A'.toNat + 10)
      else none
    match d with
    | none => if i = 0 then (0, 0, false) else (n, i, true)
    | some v =>
      let n2 := n * 16 + v
      if 0xFFFFFF ≤ n2 then (0, i, false)
      else xtoiAux rest n2 (i + 1)

def xtoi (s : List Char) : Nat × Nat × Bool := xtoiAux s 0 0

/-- The 16-byte v4-in-v6 form produced by Go's `IPv4(a,b,c,d)`. -/
def ipv4Bytes (a b c d : Nat) : List Nat :=
  [0, 0, 0, 0, 0, 0, 0, 0, 0, 0, 0xFF, 0xFF, a, b, c, d]

/-- Field loop of Go `parseIPv4`: four dot-separated decimal octets,
leading zeros rejected, returning the octets or `none`. -/
def parseIPv4Fields : Nat → List Char → List Nat → Option (List Nat)
  | 0, s, acc => if s = [] then some acc else none
  | fuel + 1, s, acc =>
    if s = [] then none
    else
      let s1 : Option (List Char) :=
        if acc = [] then some s
        else if s.head? = some '.' then some s.tail else none
      match s1 with
      | none => none
      | some s2 =>
        let r := dtoi s2
        if ¬ r.2.2 ∨ r.1 > 0xFF then none
        else if r.2.1 > 1 ∧ s2.head? = some '0' then none
        else parseIPv4Fields fuel (s2.drop r.2.1) (acc ++ [r.1])

/-- Go `parseIPv4` (net/ip.go): returns the 16-byte v4-in-v6 slice, or
`[]` for Go's `nil`. -/
def parseIPv4 (s : List Char) : List Nat :=
  match parseIPv4Fields 4 s [] with
  | some [a, b, c, d] => ipv4Bytes a b c d
  | _ => []

/-- Final fixup of Go `parseIPv6`: leftover input, ellipsis expansion. -/
def parseIPv6Finish (s : List Char) (ell : Option Nat) (acc : List Nat) :
    List Nat :=
  if s ≠ [] then []
  else if acc.length < 16 then
    match ell with
    | none => []
    | some e => acc.take e ++ List.replicate (16 - acc.length) 0 ++ acc.drop e
  else
    match ell with
    | some _ => []
    | none => acc

/-- Main loop of Go `parseIPv6` (net/ip.go): hex groups separated by `:`,
one optional `::` ellipsis, optional trailing dotted IPv4.  Each iteration
adds at least two bytes, so fuel 8 covers the 16-byte address. -/
def parseIPv6Loop : Nat → List Char → Option Nat → List Nat → List Nat
  | 0, s, ell, acc => parseIPv6Finish s ell acc
  | fuel + 1, s, ell, acc =>
    if 16 ≤ acc.length then parseIPv6Finish s ell acc
    else
      let r := xtoi s
      if ¬ r.2.2 ∨ r.1 > 0xFFFF then []
      else if r.2.1 < s.length ∧ (s.drop r.2.1).head? = some '.' then
        if ell = none ∧ acc.length ≠ 12 then []
        else if acc.length + 4 > 16 then []
        else
          let ip4 := parseIPv4 s
          if ip4 = [] then []
          else parseIPv6Finish [] ell (acc ++ ip4.drop 12)
      else
        let acc1 := acc ++ [r.1 / 256, r.1 % 256]
        let s1 := s.drop r.2.1
        if s1 = [] then parseIPv6Finish [] ell acc1
        else if s1.head? ≠ some ':' ∨ s1.length = 1 then []
        else
          let s2 := s1.drop 1
          if s2.head? = some ':' then
            if ell.isSome then []
            else
              let s3 := s2.drop 1
              if s3 = [] then parseIPv6Finish [] (some acc1.length) acc1
              else parseIPv6Loop fuel s3 (some acc1.length) acc1
          else parseIPv6Loop fuel s2 ell acc1

/-- Go `parseIPv6`, handling a leading `::`. -/
def parseIPv6 (s : List Char) : List Nat :=
  if s.length ≥ 2 ∧ s.head? = some ':' ∧ (s.drop 1).head? = some ':' then
    let s1 := s.drop 2
    if s1 = [] then List.replicate 16 0
    else parseIPv6Loop 8 s1 (some 0) []
  else parseIPv6Loop 8 s none []

/-- Go `splitHostZone`: strip a `%zone` suffix (split at the last `%`,
only when it is not the first character). -/
def splitHostZone (s : List Char) : List Char :=
  match (s.reverse.takeWhile (· ≠ '%')).length, s.length with
  | tl, n =>
    if tl + 1 ≤ n ∧ n - tl - 1 > 0 then s.take (n - tl - 1) else s

/-- Go `net.ParseIP`: dispatch on the first `.` or `:` seen; no such
character means `nil` (here `[]`). -/
def parseIP (s : List Char) : List Nat :=
  match s.find? (fun c => c = '.' ∨ c = ':') with
  | some '.' => parseIPv4 s
  | some ':' => parseIPv6 (splitHostZone s)
  | _ => []

/-- Go `IP.To4`: the 4-byte form when the value is IPv4 or v4-in-v6,
otherwise `nil` (`[]`).  On a `nil` receiver it returns `nil`. -/
def goTo4 (ip : List Nat) : List Nat :=
  if ip.length = 4 then ip
  else if ip.length = 16 ∧ ip.take 10 = List.replicate 10 0 ∧
      ip.get? 10 = some 0xFF ∧ ip.get? 11 = some 0xFF then
    ip.drop 12
  else []

/-! ## `InterfaceList` (server.go lines 28–80 / combined file lines 41–93)

The handler iterates `net.Interfaces()`; for each interface it records the
hardware address, then classifies every `iface.Addrs()` entry by
`strings.Split(addr.String(), "/")[0]` followed by `net.ParseIP` and
`ip.To4() != nil`.
-/

/-- `strings.Split(s, "/")[0]`: the prefix before the first slash. -/
def takeUntilSlash : List Char → List Char
  | [] => []
  | c :: rest => if c = '/' then [] else c :: takeUntilSlash rest

/-- One host interface as reported by `net.Interfaces()` /
`iface.Addrs()`.  `flags` models `iface.Flags`; `IFF_UP` is bit 0.
`addrsResult = none` models `iface.Addrs()` returning an error (in which
case the returned slice is `nil`, i.e. empty). -/
structure NetInterface where
  name : String
  flags : Nat
  hardwareAddr : String
  addrsResult : Option (List String)

structure ApiInterface where
  name : String
  up : Bool
  ethernetAddresses : List String
  ipv4Addresses : List String
  ipv6Addresses : List String
  deriving DecidableEq, Repr

structure InterfaceListReply where
  success : Bool
  interfaces : List ApiInterface
  deriving DecidableEq, Repr

/-- One iteration of the classification loop (lines 54–74 of server.go):
strip the prefix length, parse, and append to the IPv4 list when
`ip.To4() != nil`, otherwise to the IPv6 list. -/
def classifyStep (acc : List String × List String) (a : String) :
    List String × List String :=
  let address : String := ⟨takeUntilSlash a.data⟩
  let ip := parseIP address.data
  if goTo4 ip ≠ [] then (acc.1 ++ [address], acc.2)
  else (acc.1, acc.2 ++ [address])

/-- The classification loop over an interface's address list. -/
def classifyAddrs (addrs : List String) : List String × List String :=
  addrs.foldl classifyStep ([], [])

/-- Per-interface body of the `InterfaceList` loop: skip when the
interface is down and `all` was not requested; otherwise build the reply
entry.  The error of `iface.Addrs()` is discarded (`addrs, _ :=`), leaving
a `nil` slice. -/
def processInterface (all : Bool) (iface : NetInterface) :
    Option ApiInterface :=
  let isUp : Bool := iface.flags &&& 1 != 0
  if !(isUp || all) then none
  else
    let cls := classifyAddrs (iface.addrsResult.getD [])
    some
      { name := iface.name
        up := isUp
        ethernetAddresses := [iface.hardwareAddr]
        ipv4Addresses := cls.1
        ipv6Addresses := cls.2 }

/-- `(*server).InterfaceList`.  `hostQuery = none` models
`net.Interfaces()` failing, in which case the handler returns the
`Success: false` reply it pre-built (never a gRPC error: the Go function
returns `result, nil` on both paths). -/
def interfaceList (hostQuery : Option (List NetInterface)) (all : Bool) :
    InterfaceListReply :=
  match hostQuery with
  | none => { success := false, interfaces := [] }
  | some ifaces =>
    { success := true
      interfaces := ifaces.filterMap (processInterface all) }

/-! ## `LiveCapture` (combined file lines 101–185)

The handler builds an inactive pcap handle, stages options through six
setters, activates, optionally attaches a BPF filter, and then loops:
spawn one reader goroutine, `select` over the global `shuttingDown`
channel (only ever closed, never sent to), the stream context, and the
read result.  libpcap/gopacket and the gRPC stream are modelled by an
environment `PcapEnv` choosing which calls fail and a schedule of
`select` outcomes.  gopacket methods with pointer receivers
(`(*InactiveHandle).CleanUp`, `(*Handle).SetBPFFilter`, `(*Handle).Close`)
dereference their receiver, so invoking them on a `nil` handle is a
nil-pointer panic; the trace records this as `nilDeref` with outcome
`panicked`.
-/

/-- The fields of `api.CaptureRequest` that `LiveCapture` reads. -/
structure CaptureRequest where
  iface : String
  filter : String
  snaplen : Int
  bufferSizeBytes : Nat
  promiscuousMode : Bool
  rfMonitor : Bool
  immediateMode : Bool
  timeoutNanoseconds : Int
  deriving DecidableEq, Repr

/-- One `inactiveHandle.SetX(...)` call, for recording application order. -/
inductive SetterCall
  | immediateMode | snapLen | bufferSize | promisc | rfMon | timeout
  deriving DecidableEq, Repr

/-- The options staged on the inactive handle; `none` = never set.  Each
gopacket setter writes exactly one field (and only on success). -/
structure HandleOptions where
  immediateMode : Option Bool := none
  snaplen : Option Int := none
  bufferSize : Option Nat := none
  promisc : Option Bool := none
  rfmon : Option Bool := none
  timeout : Option Int := none
  deriving DecidableEq, Repr

/-- Which pcap library calls fail, and with what error text. -/
structure PcapEnv where
  newInactiveErr : Option String := none
  setImmediateErr : Option String := none
  setSnapLenErr : Option String := none
  setBufferSizeErr : Option String := none
  setPromiscErr : Option String := none
  setRFMonErr : Option String := none
  setTimeoutErr : Option String := none
  activateErr : Option String := none
  setBPFFilterErr : Option String := none
  deriving DecidableEq, Repr

/-- The resolution of one `handle.ReadPacketData()` call, together with
the outcome `stream.Send` would have for the resulting record. -/
structure ReadResult where
  data : List Nat
  tsUnixSec : Int
  tsNanos : Nat
  length : Nat
  readErr : Option String := none
  sendErr : Option String := none
  deriving DecidableEq, Repr

/-- Which `select` case fires in one iteration of the capture loop:
the closed `shuttingDown` channel (nothing ever sends on it, it is only
closed, so a receive always reports `running == false`), the stream
context, or the reader goroutine's result. -/
inductive LoopEvent
  | shutdown
  | ctxDone
  | read (r : ReadResult)
  deriving DecidableEq, Repr

/-- The `api.PacketData` wire record. -/
structure PacketData where
  seconds : Int
  microseconds : Nat
  originalLength : Nat
  data : List Nat
  deriving DecidableEq, Repr

/-- Lines 171–176: the record built from a successful read.
`uint32(p.ci.Timestamp.Nanosecond()) * 1000` converts the nanosecond
count to `uint32` and multiplies by 1000 in `uint32` arithmetic;
`uint32(p.ci.Length)` likewise truncates. -/
def mkPacketData (r : ReadResult) : PacketData :=
  { seconds := r.tsUnixSec
    microseconds := (r.tsNanos % 2 ^ 32) * 1000 % 2 ^ 32
    originalLength := r.length % 2 ^ 32
    data := r.data }

/-- How the handler's control flow ends. -/
inductive Outcome
  | ok
  | err (e : String)
  | panicked
  | stillRunning
  deriving DecidableEq, Repr

/-- Lines 150–184: per iteration one reader goroutine is spawned (a read
issued), then the `select` arbitrates.  Returns (records passed to
`stream.Send`, reads issued, outcome).  A schedule that runs out leaves
the loop still running (`stillRunning`). -/
def runLoop : List LoopEvent → List PacketData × Nat × Outcome
  | [] => ([], 0, .stillRunning)
  | e :: rest =>
    match e with
    | .shutdown => ([], 1, .ok)
    | .ctxDone => ([], 1, .ok)
    | .read r =>
      match r.readErr with
      | some e2 => ([], 1, .err e2)
      | none =>
        let pd := mkPacketData r
        match r.sendErr with
        | some e2 => ([pd], 1, .err e2)
        | none =>
          let res := runLoop rest
          (pd :: res.1, res.2.1 + 1, res.2.2)

/-- Everything observable about one `LiveCapture` call: the setter calls
in order, the staged options, whether `Activate` produced a live handle,
how many times that handle was closed, whether any method ran on a nil
receiver (a Go nil-pointer panic), whether `SetBPFFilter` was invoked,
the records passed to `stream.Send`, the reads issued, and the outcome. -/
structure CaptureTrace where
  setterOrder : List SetterCall
  opts : HandleOptions
  handleAcquired : Bool
  handleCloseCount : Nat
  nilDeref : Bool
  bpfAttempted : Bool
  emitted : List PacketData
  readsIssued : Nat
  outcome : Outcome
  deriving DecidableEq, Repr

/-- A trace for a return taken before the read loop starts. -/
def preLoopTrace (order : List SetterCall) (opts : HandleOptions)
    (acquired : Bool) (closes : Nat) (nd : Bool) (bpf : Bool)
    (oc : Outcome) : CaptureTrace :=
  { setterOrder := order, opts := opts, handleAcquired := acquired
    handleCloseCount := closes, nilDeref := nd, bpfAttempted := bpf
    emitted := [], readsIssued := 0, outcome := oc }

/-- `(*server).LiveCapture`, lines 101–185, translated line by line.

* Line 103–107: `NewInactiveHandle`; on failure the handle is nil and the
  already-`defer`red `CleanUp` (line 104) dereferences the nil receiver
  while returning, a panic.
* Lines 108–135: the six setters in source order; each failure except
  `SetRFMon` (line 128–131, logged only) returns the error.
* Line 138: `Activate`; on failure `handle` is nil and `err` non-nil.
* Lines 139–144: a non-empty filter is compiled via `handle.SetBPFFilter`
  **before** `err` from `Activate` is checked and **before**
  `defer handle.Close()` (line 145) is registered; a compilation failure
  returns with the live handle never closed.
* Lines 146–148: return of the activation error; the `defer handle.Close()`
  just registered then runs on the nil handle.
* Lines 150–184: the read loop, `runLoop`. -/
def liveCapture (req : CaptureRequest) (env : PcapEnv)
    (sched : List LoopEvent) : CaptureTrace :=
  match env.newInactiveErr with
  | some _ => preLoopTrace [] {} false 0 true false .panicked
  | none =>
    match env.setImmediateErr with
    | some e => preLoopTrace [.immediateMode] {} false 0 false false (.err e)
    | none =>
      let o1 : HandleOptions := { immediateMode := some req.immediateMode }
      match env.setSnapLenErr with
      | some e =>
        preLoopTrace [.immediateMode, .snapLen] o1 false 0 false false (.err e)
      | none =>
        let o2 := { o1 with snaplen := some req.snaplen }
        let bufferSize := if req.bufferSizeBytes = 0 then 4194304
          else req.bufferSizeBytes
        match env.setBufferSizeErr with
        | some e =>
          preLoopTrace [.immediateMode, .snapLen, .bufferSize] o2 false 0
            false false (.err e)
        | none =>
          let o3 := { o2 with bufferSize := some bufferSize }
          match env.setPromiscErr with
          | some e =>
            preLoopTrace [.immediateMode, .snapLen, .bufferSize, .promisc]
              o3 false 0 false false (.err e)
          | none =>
            let o4 := { o3 with promisc := some req.promiscuousMode }
            let o5 := match env.setRFMonErr with
              | some _ => o4
              | none => { o4 with rfmon := some req.rfMonitor }
            let order6 : List SetterCall :=
              [.immediateMode, .snapLen, .bufferSize, .promisc, .rfMon,
               .timeout]
            match env.setTimeoutErr with
            | some e => preLoopTrace order6 o5 false 0 false false (.err e)
            | none =>
              let o6 := { o5 with timeout := some req.timeoutNanoseconds }
              match env.activateErr with
              | some _ =>
                if req.filter.length > 0 then
                  preLoopTrace order6 o6 false 0 true true .panicked
                else
                  preLoopTrace order6 o6 false 0 true false .panicked
              | none =>
                if req.filter.length > 0 then
                  match env.setBPFFilterErr with
                  | some e =>
                    preLoopTrace order6 o6 true 0 false true (.err e)
                  | none =>
                    let res := runLoop sched
                    { setterOrder := order6, opts := o6
                      handleAcquired := true
                      handleCloseCount :=
                        if res.2.2 = .stillRunning then 0 else 1
                      nilDeref := false, bpfAttempted := true
                      emitted := res.1, readsIssued := res.2.1
                      outcome := res.2.2 }
                else
                  let res := runLoop sched
                  { setterOrder := order6, opts := o6
                    handleAcquired := true
                    handleCloseCount :=
                      if res.2.2 = .stillRunning then 0 else 1
                    nilDeref := false, bpfAttempted := false
                    emitted := res.1, readsIssued := res.2.1
                    outcome := res.2.2 }

/-- An environment in which every pcap call succeeds. -/
def envOk : PcapEnv := {}

/-- The environment reaches the read loop: every fatal pcap call
succeeds.  `SetRFMon` may still fail (the code only logs it). -/
def reachesRunning (env : PcapEnv) : Prop :=
  env.newInactiveErr = none ∧ env.setImmediateErr = none ∧
  env.setSnapLenErr = none ∧ env.setBufferSizeErr = none ∧
  env.setPromiscErr = none ∧ env.setTimeoutErr = none ∧
  env.activateErr = none ∧ env.setBPFFilterErr = none

/-- A loop event whose iteration does not end the loop: a read that
succeeds and whose record is sent successfully. -/
def goodRead : LoopEvent → Prop
  | .read r => r.readErr = none ∧ r.sendErr = none
  | .shutdown => False
  | .ctxDone => False

/-- The records the loop sends for a schedule of successful reads. -/
def emittedOf (evts : List LoopEvent) : List PacketData :=
  evts.filterMap fun e =>
    match e with
    | .read r => some (mkPacketData r)
    | _ => none

/-! ## Spec-side definition for the option-application order

The spec (§4.2) claims the options are applied "with snapshot length,
buffer size, immediate-mode flag, promiscuous flag, and read timeout
applied, in that order".  This definition follows the spec's words, to be
compared with the order the code actually produces. -/

def specClaimedSetterOrder : List SetterCall :=
  [.snapLen, .bufferSize, .immediateMode, .promisc, .timeout]

/-- The recorded setter order restricted to the five settings the spec's
order claim mentions (the monitor-mode call is not among them). -/
def fatalSetterOrder (t : CaptureTrace) : List SetterCall :=
  t.setterOrder.filter fun c =>
    match c with
    | .rfMon => false
    | _ => true

/-! ## Concrete inputs used by the evaluations and witnesses -/

def reqFiltered : CaptureRequest :=
  { iface := "eth0", filter := "tcp", snaplen := 65535
    bufferSizeBytes := 0, promiscuousMode := true, rfMonitor := false
    immediateMode := false, timeoutNanoseconds := 0 }

def reqNoFilter : CaptureRequest := { reqFiltered with filter := "" }

def envBpfFail : PcapEnv := { setBPFFilterErr := some "bad filter" }

def envActivateFail : PcapEnv := { activateErr := some "activation failed" }

/-- A read whose timestamp has a one-microsecond sub-second component
(`Nanosecond() = 1000`, as a microsecond-resolution pcap clock reports). -/
def readTs1us : ReadResult :=
  { data := [171], tsUnixSec := 1700000000, tsNanos := 1000, length := 1 }

def goodReadA : ReadResult :=
  { data := [222, 173], tsUnixSec := 1700000000, tsNanos := 123000
    length := 2 }

def pendingReadB : ReadResult :=
  { data := [1], tsUnixSec := 1700000001, tsNanos := 0, length := 1 }

def failedReadC : ReadResult :=
  { data := [], tsUnixSec := 0, tsNanos := 0, length := 0
    readErr := some "read failed" }

/-- An interface whose address list contains unparseable text (as a nil
`*net.IPNet` prints) followed by a normal CIDR address. -/
def ifaceBadAddr : NetInterface :=
  { name := "tun0", flags := 1, hardwareAddr := ""
    addrsResult := some ["<nil>", "10.0.0.1/24"] }

/-- An up interface for which `iface.Addrs()` fails. -/
def ifaceNoAddrs : NetInterface :=
  { name := "wg0", flags := 1, hardwareAddr := "aa:bb:cc:dd:ee:ff"
    addrsResult := none }

/-! ## Helper lemmas -/

theorem classifyAddrs_acc (addrs : List String)
    (acc : List String × List String) :
    addrs.foldl classifyStep acc =
      (acc.1 ++ (classifyAddrs addrs).1, acc.2 ++ (classifyAddrs addrs).2) := by
  induction addrs generalizing acc with
  | nil => simp [classifyAddrs]
  | cons a rest ih =>
    simp only [classifyAddrs, List.foldl_cons]
    rw [ih (classifyStep acc a), ih (classifyStep ([], []) a)]
    unfold classifyStep
    by_cases h :
        goTo4 (parseIP (String.mk (takeUntilSlash a.data)).data) ≠ [] <;>
      simp [h, List.append_assoc]

theorem classifyAddrs_append (xs ys : List String) :
    classifyAddrs (xs ++ ys) =
      ((classifyAddrs xs).1 ++ (classifyAddrs ys).1,
       (classifyAddrs xs).2 ++ (classifyAddrs ys).2) := by
  unfold classifyAddrs
  rw [List.foldl_append]
  exact classifyAddrs_acc ys _

/-- Once the handler reaches the read loop, its emissions, reads and
outcome are those of `runLoop` on the schedule. -/
theorem liveCapture_reaches_loop (req : CaptureRequest) (env : PcapEnv)
    (sched : List LoopEvent) (henv : reachesRunning env) :
    (liveCapture req env sched).emitted = (runLoop sched).1 ∧
    (liveCapture req env sched).readsIssued = (runLoop sched).2.1 ∧
    (liveCapture req env sched).outcome = (runLoop sched).2.2 := by
  obtain ⟨h1, h2, h3, h4, h5, h6, h7, h8⟩ := henv
  simp only [liveCapture, h1, h2, h3, h4, h5, h6, h7, h8]
  by_cases hf : req.filter.length > 0 <;> simp [hf]

/-- A schedule of successful reads followed by a cancellation signal:
the loop returns `nil` at that signal, with only the earlier records
sent and the in-flight read left unresolved. -/
theorem runLoop_cancel (pre rest : List LoopEvent) (e : LoopEvent)
    (hpre : ∀ x ∈ pre, goodRead x)
    (he : e = LoopEvent.shutdown ∨ e = LoopEvent.ctxDone) :
    runLoop (pre ++ e :: rest) = (emittedOf pre, pre.length + 1, .ok) := by
  induction pre with
  | nil =>
    rcases he with h | h <;> subst h <;> simp [runLoop, emittedOf]
  | cons x xs ih =>
    have hx : goodRead x := hpre x (List.mem_cons_self x xs)
    cases x with
    | shutdown => simp [goodRead] at hx
    | ctxDone => simp [goodRead] at hx
    | read r =>
      obtain ⟨hr, hs⟩ := hx
      have ih2 := ih fun y hy => hpre y (List.mem_cons_of_mem _ hy)
      simp [runLoop, hr, hs, emittedOf, ih2]

/-- A schedule of successful reads followed by a failing read: the loop
returns that read's error, with only the earlier records sent. -/
theorem runLoop_read_error (pre rest : List LoopEvent) (r : ReadResult)
    (e : String) (hpre : ∀ x ∈ pre, goodRead x)
    (hr : r.readErr = some e) :
    runLoop (pre ++ LoopEvent.read r :: rest) =
      (emittedOf pre, pre.length + 1, .err e) := by
  induction pre with
  | nil => simp [runLoop, hr, emittedOf]
  | cons x xs ih =>
    have hx : goodRead x := hpre x (List.mem_cons_self x xs)
    cases x with
    | shutdown => simp [goodRead] at hx
    | ctxDone => simp [goodRead] at hx
    | read q =>
      obtain ⟨hq, hs⟩ := hx
      have ih2 := ih fun y hy => hpre y (List.mem_cons_of_mem _ hy)
      simp [runLoop, hq, hs, emittedOf, ih2]

/-! ## Claims -/

/-- C1: the claim says every emitted record's `microseconds` lies in
[0, 999999] and is the timestamp's sub-second component truncated to
microseconds.  The code computes `uint32(Nanosecond()) * 1000`: a
timestamp one microsecond into the second (`Nanosecond() = 1000`) is
emitted with `microseconds = 1000000`, outside the range and unequal to
the truncation `1000 / 1000 = 1`. -/
theorem liveCapture_microseconds_not_truncated :
    ((liveCapture reqNoFilter envOk
        [LoopEvent.read readTs1us, LoopEvent.shutdown]).emitted.map
      PacketData.microseconds) = [1000000] ∧
    ¬ (1000000 ≤ 999999) ∧ readTs1us.tsNanos / 1000 = 1 := by
  decide

/-- C2: the claim says the capture handle is released exactly once on
every exit path, including filter-compilation failure.  On that path the
code returns before `defer handle.Close()` is registered: the activated
handle is acquired but never closed. -/
theorem liveCapture_bpf_failure_leaks_handle :
    (liveCapture reqFiltered envBpfFail []).handleAcquired = true ∧
    (liveCapture reqFiltered envBpfFail []).handleCloseCount = 0 ∧
    (liveCapture reqFiltered envBpfFail []).outcome =
      Outcome.err "bad filter" := by
  decide

/-- C3: the claim says an activation failure returns the error with
nothing further attempted (no filter compilation) and no crash.  The code
checks `err` from `Activate` only after the filter block and the
`defer handle.Close()`: with a non-empty filter it calls `SetBPFFilter`
on the nil handle (a nil-pointer panic), and even with an empty filter
the deferred `Close` runs on the nil handle and panics. -/
theorem liveCapture_activation_failure_crashes :
    ((liveCapture reqFiltered envActivateFail []).bpfAttempted = true ∧
     (liveCapture reqFiltered envActivateFail []).nilDeref = true ∧
     (liveCapture reqFiltered envActivateFail []).outcome =
       Outcome.panicked) ∧
    ((liveCapture reqNoFilter envActivateFail []).nilDeref = true ∧
     (liveCapture reqNoFilter envActivateFail []).outcome =
       Outcome.panicked) := by
  decide

/-- C4: the claim says an address whose text fails to parse is appended
to neither list.  The code tests only `ip.To4() != nil`, and a failed
parse (`ip = nil`) lands in the `else` branch: the unparseable text
`"<nil>"` is appended to the IPv6 list (enumeration does continue with
the remaining addresses). -/
theorem interfaceList_unparseable_appended_to_ipv6 :
    (interfaceList (some [ifaceBadAddr]) false).interfaces =
      [{ name := "tun0", up := true, ethernetAddresses := [""]
         ipv4Addresses := ["10.0.0.1"], ipv6Addresses := ["<nil>"] }] := by
  decide

/-- C5 as stated is false: the first option applied is the immediate-mode
flag, not the snapshot length, so the applied order of the five settings
named by the claim differs from the claimed order. -/
theorem liveCapture_setter_order_counterexample :
    fatalSetterOrder (liveCapture reqFiltered envOk []) ≠
      specClaimedSetterOrder := by
  decide

/-- C5 amended: during activation the options are applied in the order
immediate mode, snapshot length, buffer size, promiscuous flag,
monitor mode, read timeout; and no later setting reverts an earlier one
(each staged option ends up equal to its configured value, with the
buffer size defaulting to 4 MiB when the request gives zero). -/
theorem liveCapture_option_application (req : CaptureRequest)
    (env : PcapEnv) (sched : List LoopEvent) (henv : reachesRunning env)
    (hrf : env.setRFMonErr = none) :
    (liveCapture req env sched).setterOrder =
      [SetterCall.immediateMode, SetterCall.snapLen, SetterCall.bufferSize,
       SetterCall.promisc, SetterCall.rfMon, SetterCall.timeout] ∧
    (liveCapture req env sched).opts =
      { immediateMode := some req.immediateMode
        snaplen := some req.snaplen
        bufferSize := some (if req.bufferSizeBytes = 0 then 4194304
          else req.bufferSizeBytes)
        promisc := some req.promiscuousMode
        rfmon := some req.rfMonitor
        timeout := some req.timeoutNanoseconds } := by
  obtain ⟨h1, h2, h3, h4, h5, h6, h7, h8⟩ := henv
  simp only [liveCapture, h1, h2, h3, h4, h5, h6, h7, h8, hrf]
  by_cases hf : req.filter.length > 0 <;> simp [hf]

theorem liveCapture_option_application_witness :
    (reachesRunning envOk ∧ envOk.setRFMonErr = none) ∧
    ((liveCapture reqFiltered envOk []).setterOrder =
      [SetterCall.immediateMode, SetterCall.snapLen, SetterCall.bufferSize,
       SetterCall.promisc, SetterCall.rfMon, SetterCall.timeout] ∧
     (liveCapture reqFiltered envOk []).opts =
      { immediateMode := some false, snaplen := some 65535
        bufferSize := some 4194304, promisc := some true
        rfmon := some false, timeout := some 0 }) :=
  ⟨⟨⟨rfl, rfl, rfl, rfl, rfl, rfl, rfl, rfl⟩, rfl⟩,
   liveCapture_option_application reqFiltered envOk []
     ⟨rfl, rfl, rfl, rfl, rfl, rfl, rfl, rfl⟩ rfl⟩

/-- C6: whenever the arbiter observes global shutdown or the stream
context's cancellation — after any number of successful iterations — the
session returns in that very arbitration step with a clean (`nil`)
result, emits exactly the records of the earlier iterations and nothing
further (whatever the rest of the schedule holds), and leaves the
in-flight read unresolved (one read was issued in the final step but
never consumed). -/
theorem liveCapture_cancellation_immediate_clean (req : CaptureRequest)
    (env : PcapEnv) (pre rest : List LoopEvent) (e : LoopEvent)
    (henv : reachesRunning env) (hpre : ∀ x ∈ pre, goodRead x)
    (he : e = LoopEvent.shutdown ∨ e = LoopEvent.ctxDone) :
    (liveCapture req env (pre ++ e :: rest)).outcome = Outcome.ok ∧
    (liveCapture req env (pre ++ e :: rest)).emitted = emittedOf pre ∧
    (liveCapture req env (pre ++ e :: rest)).readsIssued =
      pre.length + 1 := by
  obtain ⟨hemit, hreads, hout⟩ :=
    liveCapture_reaches_loop req env (pre ++ e :: rest) henv
  rw [hout, hemit, hreads, runLoop_cancel pre rest e hpre he]
  exact ⟨rfl, rfl, rfl⟩

theorem liveCapture_cancellation_immediate_clean_witness :
    (reachesRunning envOk ∧
     (∀ x ∈ [LoopEvent.read goodReadA], goodRead x)) ∧
    ((liveCapture reqNoFilter envOk
        ([LoopEvent.read goodReadA] ++ LoopEvent.shutdown ::
         [LoopEvent.read pendingReadB])).outcome = Outcome.ok ∧
     (liveCapture reqNoFilter envOk
        ([LoopEvent.read goodReadA] ++ LoopEvent.shutdown ::
         [LoopEvent.read pendingReadB])).emitted =
       emittedOf [LoopEvent.read goodReadA] ∧
     (liveCapture reqNoFilter envOk
        ([LoopEvent.read goodReadA] ++ LoopEvent.shutdown ::
         [LoopEvent.read pendingReadB])).readsIssued = 2) :=
  ⟨⟨⟨rfl, rfl, rfl, rfl, rfl, rfl, rfl, rfl⟩,
    by
      intro x hx
      simp only [List.mem_singleton] at hx
      subst hx
      exact ⟨rfl, rfl⟩⟩,
   liveCapture_cancellation_immediate_clean reqNoFilter envOk
     [LoopEvent.read goodReadA] [LoopEvent.read pendingReadB]
     LoopEvent.shutdown ⟨rfl, rfl, rfl, rfl, rfl, rfl, rfl, rfl⟩
     (by
       intro x hx
       simp only [List.mem_singleton] at hx
       subst hx
       exact ⟨rfl, rfl⟩)
     (Or.inl rfl)⟩

/-- C7: when the asynchronous read resolves with an error and no
cancellation signal was observed first, the session terminates with that
error propagated, emits nothing further, and never retries: only the
reads of the completed iterations were ever issued, whatever the rest of
the schedule holds. -/
theorem liveCapture_read_error_propagates (req : CaptureRequest)
    (env : PcapEnv) (pre rest : List LoopEvent) (r : ReadResult)
    (e : String) (henv : reachesRunning env)
    (hpre : ∀ x ∈ pre, goodRead x) (hr : r.readErr = some e) :
    (liveCapture req env (pre ++ LoopEvent.read r :: rest)).outcome =
      Outcome.err e ∧
    (liveCapture req env (pre ++ LoopEvent.read r :: rest)).emitted =
      emittedOf pre ∧
    (liveCapture req env (pre ++ LoopEvent.read r :: rest)).readsIssued =
      pre.length + 1 := by
  obtain ⟨hemit, hreads, hout⟩ :=
    liveCapture_reaches_loop req env (pre ++ LoopEvent.read r :: rest) henv
  rw [hout, hemit, hreads, runLoop_read_error pre rest r e hpre hr]
  exact ⟨rfl, rfl, rfl⟩

theorem liveCapture_read_error_propagates_witness :
    (reachesRunning envOk ∧
     (∀ x ∈ [LoopEvent.read goodReadA], goodRead x) ∧
     failedReadC.readErr = some "read failed") ∧
    ((liveCapture reqNoFilter envOk
        ([LoopEvent.read goodReadA] ++ LoopEvent.read failedReadC ::
         [LoopEvent.read pendingReadB])).outcome =
       Outcome.err "read failed" ∧
     (liveCapture reqNoFilter envOk
        ([LoopEvent.read goodReadA] ++ LoopEvent.read failedReadC ::
         [LoopEvent.read pendingReadB])).emitted =
       emittedOf [LoopEvent.read goodReadA] ∧
     (liveCapture reqNoFilter envOk
        ([LoopEvent.read goodReadA] ++ LoopEvent.read failedReadC ::
         [LoopEvent.read pendingReadB])).readsIssued = 2) :=
  ⟨⟨⟨rfl, rfl, rfl, rfl, rfl, rfl, rfl, rfl⟩,
    by
      intro x hx
      simp only [List.mem_singleton] at hx
      subst hx
      exact ⟨rfl, rfl⟩,
    rfl⟩,
   liveCapture_read_error_propagates reqNoFilter envOk
     [LoopEvent.read goodReadA] [LoopEvent.read pendingReadB]
     failedReadC "read failed" ⟨rfl, rfl, rfl, rfl, rfl, rfl, rfl, rfl⟩
     (by
       intro x hx
       simp only [List.mem_singleton] at hx
       subst hx
       exact ⟨rfl, rfl⟩)
     rfl⟩

/-- C8: a failed host interface query yields the pre-built
`{success: false, interfaces: []}` reply (the Go handler returns
`result, nil` — a reply, never a gRPC error); a successful query yields
`success = true`, for any interface set including one where nothing
matches the filter. -/
theorem interfaceList_success_flag :
    (∀ all : Bool,
      interfaceList none all = { success := false, interfaces := [] }) ∧
    (∀ (ifaces : List NetInterface) (all : Bool),
      (interfaceList (some ifaces) all).success = true) :=
  ⟨fun _ => rfl, fun _ _ => rfl⟩

/-- C9: `"192.168.1.5"` is appended to the IPv4 list unchanged,
`"fe80::1"` to the IPv6 list, `"10.0.0.1/24"` to the IPv4 list with the
prefix length stripped; and classification distributes over list
concatenation, so appended entries keep discovery order. -/
theorem classifyAddrs_spec_examples :
    classifyAddrs ["192.168.1.5", "fe80::1", "10.0.0.1/24"] =
      (["192.168.1.5", "10.0.0.1"], ["fe80::1"]) ∧
    (∀ (xs ys : List String),
      classifyAddrs (xs ++ ys) =
        ((classifyAddrs xs).1 ++ (classifyAddrs ys).1,
         (classifyAddrs xs).2 ++ (classifyAddrs ys).2)) :=
  ⟨by decide, classifyAddrs_append⟩

/-- C10: when `iface.Addrs()` fails for an interface that is listed, the
error is discarded (`addrs, _ :=`): the reply still contains that
interface, with its single hardware-address entry and empty IPv4/IPv6
lists, the surrounding interfaces are unaffected, and the call still
reports `success = true`. -/
theorem interfaceList_addr_query_failure_soft (pre post : List NetInterface)
    (iface : NetInterface) (all : Bool)
    (haddr : iface.addrsResult = none)
    (hup : ((iface.flags &&& 1 != 0) || all) = true) :
    (interfaceList (some (pre ++ iface :: post)) all).success = true ∧
    (interfaceList (some (pre ++ iface :: post)) all).interfaces =
      (interfaceList (some pre) all).interfaces ++
        ({ name := iface.name, up := iface.flags &&& 1 != 0
           ethernetAddresses := [iface.hardwareAddr]
           ipv4Addresses := [], ipv6Addresses := [] } : ApiInterface) ::
          (interfaceList (some post) all).interfaces := by
  refine ⟨rfl, ?_⟩
  have hpi : processInterface all iface =
      some { name := iface.name, up := iface.flags &&& 1 != 0
             ethernetAddresses := [iface.hardwareAddr]
             ipv4Addresses := [], ipv6Addresses := [] } := by
    have hup2 : iface.flags % 2 = 1 ∨ all = true := by
      rw [Bool.or_eq_true] at hup
      rcases hup with h | h
      · rw [bne_iff_ne, ne_eq, Nat.and_one_is_mod] at h
        omega
      · exact Or.inr h
    simp [processInterface, haddr, classifyAddrs]
    intro h0
    rcases hup2 with h | h
    · exact absurd h0 (by omega)
    · exact h
  simp [interfaceList, List.filterMap_append, List.filterMap_cons, hpi]

theorem interfaceList_addr_query_failure_soft_witness :
    (ifaceNoAddrs.addrsResult = none ∧
     ((ifaceNoAddrs.flags &&& 1 != 0) || false) = true) ∧
    ((interfaceList (some ([] ++ ifaceNoAddrs :: [])) false).success =
       true ∧
     (interfaceList (some ([] ++ ifaceNoAddrs :: [])) false).interfaces =
       (interfaceList (some []) false).interfaces ++
         ({ name := ifaceNoAddrs.name
            up := ifaceNoAddrs.flags &&& 1 != 0
            ethernetAddresses := [ifaceNoAddrs.hardwareAddr]
            ipv4Addresses := [], ipv6Addresses := [] } : ApiInterface) ::
           (interfaceList (some []) false).interfaces) :=
  ⟨⟨rfl, rfl⟩,
   interfaceList_addr_query_failure_soft [] [] ifaceNoAddrs false rfl rfl⟩

end Pcap
